import Mathlib

/-!
Verification of the CollidingGalaxiesSFR visualization pipeline.

The development shallowly embeds the three visualization scripts
(visualize_animation.py, visualize_edge_on.py, visualize_tilted.py):
the snapshot reader, the pooled-percentile view-window estimation, and
the rotation projection.  Coordinates are modelled by rationals for the
bounds pipeline (the claims there are structural) and by reals for the
rotation projection (where trigonometric identities matter).
-/

namespace GalaxyVis

/-- The newly-formed-star datasets of an HDF5 PartType4 group:
Coordinates, Masses, StellarFormationTime. -/
structure PartData where
  coordinates : List (ℚ × ℚ × ℚ)
  masses : List ℚ
  sftime : List ℚ
  deriving DecidableEq

/-- An input snapshot file, as far as load_snapshot reads it: the
Header Time attribute (absent when the file lacks the required time
metadata, in which case the h5py lookup raises) and the optional
particle groups PartType4 (new stars), PartType2 (disk), PartType3
(bulge). -/
structure SnapFile where
  timeAttr : Option ℚ
  partType4 : Option PartData
  partType2 : Option (List (ℚ × ℚ × ℚ))
  partType3 : Option (List (ℚ × ℚ × ℚ))
  deriving DecidableEq

/-- The per-frame record built by load_snapshot: the data dict. -/
structure Snap where
  newstars_pos : List (ℚ × ℚ × ℚ)
  newstars_mass : List ℚ
  newstars_time : List ℚ
  disk_pos : List (ℚ × ℚ × ℚ)
  bulge_pos : List (ℚ × ℚ × ℚ)
  time : ℚ
  deriving DecidableEq

/-- The error raised while loading a snapshot: the KeyError from
the missing Header Time attribute (the spec's MissingDataError). -/
inductive LoadError where
  | missingData
  deriving DecidableEq

/-- load_snapshot (identical in all three scripts): reads the Time
attribute (failing when it is absent), and each particle group,
substituting an empty 0x3 / 0-length array for an absent group. -/
def load_snapshot (f : SnapFile) : Except LoadError Snap :=
  match f.timeAttr with
  | none => Except.error LoadError.missingData
  | some t =>
    let nd := match f.partType4 with
      | some d => (d.coordinates, d.masses, d.sftime)
      | none => ([], [], [])
    let dp := match f.partType2 with
      | some ps => ps
      | none => []
    let bp := match f.partType3 with
      | some ps => ps
      | none => []
    Except.ok
      { newstars_pos := nd.1
        newstars_mass := nd.2.1
        newstars_time := nd.2.2
        disk_pos := dp
        bulge_pos := bp
        time := t }

/-- The snapshot-loading loop of create_animation / create_static_frames:
loads each file in order, aborting at the first failure. -/
def loadAll : List SnapFile → Except LoadError (List Snap)
  | [] => Except.ok []
  | f :: fs =>
    match load_snapshot f with
    | Except.error e => Except.error e
    | Except.ok s =>
      match loadAll fs with
      | Except.error e => Except.error e
      | Except.ok rest => Except.ok (s :: rest)

/-- np.percentile with the default linear interpolation: sort the pooled
values, take the virtual index h = (n-1)*q/100 and interpolate between
the neighbouring order statistics.  On an empty input np.percentile
raises; this is modelled by none. -/
def percentile (q : ℚ) (xs : List ℚ) : Option ℚ :=
  if xs.length = 0 then none
  else
    let s := List.insertionSort (fun a b : ℚ => a ≤ b) xs
    let h : ℚ := ((xs.length : ℚ) - 1) * q / 100
    let i : ℕ := (⌊h⌋).toNat
    let lo := s.getD i 0
    let hi := s.getD (min (i + 1) (xs.length - 1)) 0
    some (lo + (h - (i : ℚ)) * (hi - lo))

/-- A 2D axis-aligned viewing window: xlim and ylim as set on the axes. -/
structure Window where
  xlo : ℚ
  xhi : ℚ
  ylo : ℚ
  yhi : ℚ
  deriving DecidableEq

/-- View-window computation shared by the face-on script (both axes) and
by the tilted script (both rotated axes): take the 1st and 99th
percentile of each pooled axis and pad by 10 percent of that range on
each end. -/
def mkWindow (all_x all_y : List ℚ) : Option Window :=
  match percentile 1 all_x, percentile 99 all_x, percentile 1 all_y, percentile 99 all_y with
  | some x1, some x99, some y1, some y99 =>
    let x_range := x99 - x1
    let y_range := y99 - y1
    some { xlo := x1 - x_range / 10
           xhi := x99 + x_range / 10
           ylo := y1 - y_range / 10
           yhi := y99 + y_range / 10 }
  | _, _, _, _ => none

/-- View-window computation of the edge-on script: the X axis is the
padded percentile range, while the Z (thin-axis) percentile range is
computed but then overridden by z_max = (padded X extent)/3 with the
window [-z_max, z_max]. -/
def edgeWindow (all_x all_z : List ℚ) : Option Window :=
  match percentile 1 all_x, percentile 99 all_x, percentile 1 all_z, percentile 99 all_z with
  | some x1, some x99, some _, some _ =>
    let x_range := x99 - x1
    let xlo := x1 - x_range / 10
    let xhi := x99 + x_range / 10
    let z_max := (xhi - xlo) / 3
    some { xlo := xlo, xhi := xhi, ylo := -z_max, yhi := z_max }
  | _, _, _, _ => none

/-- The face-on projection pos[:, :2]: keep the x and y columns. -/
def projectXY (ps : List (ℚ × ℚ × ℚ)) : List (ℚ × ℚ) :=
  ps.map (fun p => (p.1, p.2.1))

/-- Per-snapshot x coordinates of the newly formed stars contributed to
the pool; the script guards the extension with len(newstars_pos) > 0. -/
def newXs (s : Snap) : List ℚ :=
  if 0 < s.newstars_pos.length then s.newstars_pos.map (fun p => p.1) else []

/-- Per-snapshot y coordinates of the newly formed stars in the pool. -/
def newYs (s : Snap) : List ℚ :=
  if 0 < s.newstars_pos.length then s.newstars_pos.map (fun p => p.2.1) else []

/-- Per-snapshot x coordinates of disk and bulge stars in the pool. -/
def oldXs (s : Snap) : List ℚ :=
  s.disk_pos.map (fun p => p.1) ++ s.bulge_pos.map (fun p => p.1)

/-- Per-snapshot y coordinates of disk and bulge stars in the pool. -/
def oldYs (s : Snap) : List ℚ :=
  s.disk_pos.map (fun p => p.2.1) ++ s.bulge_pos.map (fun p => p.2.1)

/-- One iteration of the pooling loop: new stars (guarded), then disk,
then bulge. -/
def snapXs (s : Snap) : List ℚ := newXs s ++ oldXs s

/-- One iteration of the pooling loop, y coordinates. -/
def snapYs (s : Snap) : List ℚ := newYs s ++ oldYs s

/-- The pooling loop: concatenate one contribution per snapshot, in
sequence order. -/
def poolBy (f : Snap → List ℚ) : List Snap → List ℚ
  | [] => []
  | s :: rest => f s ++ poolBy f rest

/-- The pooled all_x list over the whole snapshot sequence. -/
def allXs (snaps : List Snap) : List ℚ := poolBy snapXs snaps

/-- The pooled all_y list over the whole snapshot sequence. -/
def allYs (snaps : List Snap) : List ℚ := poolBy snapYs snaps

/-- The face-on view window as computed from a snapshot sequence. -/
def faceWindow (snaps : List Snap) : Option Window :=
  mkWindow (allXs snaps) (allYs snaps)

/-- What one rendered frame receives: the shared window, the projected
point sets, the simulation time and the new-star count. -/
structure Frame where
  window : Window
  old_points : List (ℚ × ℚ)
  new_points : List (ℚ × ℚ)
  time : ℚ
  new_count : ℕ
  deriving DecidableEq

/-- The per-frame drawing step of the face-on script: disk and bulge
positions dropped to (x, y), the guarded new-star positions, the time
and count overlays, all framed by the fixed window. -/
def renderFrame (w : Window) (s : Snap) : Frame :=
  { window := w
    old_points := projectXY s.disk_pos ++ projectXY s.bulge_pos
    new_points := if 0 < s.newstars_pos.length then projectXY s.newstars_pos else []
    time := s.time
    new_count := s.newstars_pos.length }

/-- A fatal error aborting a render run: a missing time attribute, or
the exception np.percentile raises on an empty pool. -/
inductive RunError where
  | missingData
  | emptyPool
  deriving DecidableEq

/-- The outcome of create_animation: the early no-snapshots return, an
aborting error, or the rendered frames together with their shared
window. -/
inductive RunResult where
  | noSnapshots
  | err (e : RunError)
  | rendered (w : Window) (frames : List Frame)
  deriving DecidableEq

/-- Bool classifier for the error outcomes of a run. -/
def RunResult.isErr : RunResult → Bool
  | RunResult.err _ => true
  | _ => false

/-- create_animation of the face-on script: return early when no
snapshot files were discovered; otherwise load every snapshot, compute
the shared window from the pooled percentiles, and render one frame per
snapshot with that window. -/
def create_animation (files : List SnapFile) : RunResult :=
  if files.isEmpty then RunResult.noSnapshots
  else
    match loadAll files with
    | Except.error LoadError.missingData => RunResult.err RunError.missingData
    | Except.ok snaps =>
      match mkWindow (allXs snaps) (allYs snaps) with
      | none => RunResult.err RunError.emptyPool
      | some w => RunResult.rendered w (snaps.map (renderFrame w))

/-- create_static_frames of the face-on script: no early return on an
empty file list, so an empty pool always reaches np.percentile. -/
def create_static_frames (files : List SnapFile) : Except RunError (List Frame) :=
  match loadAll files with
  | Except.error LoadError.missingData => Except.error RunError.missingData
  | Except.ok snaps =>
    match mkWindow (allXs snaps) (allYs snaps) with
    | none => Except.error RunError.emptyPool
    | some w => Except.ok (snaps.map (renderFrame w))

example : percentile 1 [0, 100] = some 1 := by
  norm_num [percentile, List.insertionSort, List.orderedInsert]
example : percentile 99 [0, 100] = some 99 := by
  norm_num [percentile, List.insertionSort, List.orderedInsert]
example : mkWindow [0, 100] [0, 100]
    = some { xlo := -44/5, xhi := 544/5, ylo := -44/5, yhi := 544/5 } := by
  norm_num [mkWindow, percentile, List.insertionSort, List.orderedInsert]
example : edgeWindow [0, 100] [1000, 1000]
    = some { xlo := -44/5, xhi := 544/5, ylo := -196/5, yhi := 196/5 } := by
  norm_num [edgeWindow, percentile, List.insertionSort, List.orderedInsert]

/-- Percentiles depend on the pooled values only through the sorted
list and the length, so they are invariant under permutation. -/
theorem percentile_perm (q : ℚ) {xs ys : List ℚ} (h : xs.Perm ys) :
    percentile q xs = percentile q ys := by
  have hl : xs.length = ys.length := h.length_eq
  haveI : IsAntisymm ℚ (fun a b : ℚ => a ≤ b) := ⟨fun _ _ => le_antisymm⟩
  haveI : IsTotal ℚ (fun a b : ℚ => a ≤ b) := ⟨fun a b => le_total a b⟩
  haveI : IsTrans ℚ (fun a b : ℚ => a ≤ b) := ⟨fun _ _ _ => le_trans⟩
  have hs : List.insertionSort (fun a b : ℚ => a ≤ b) xs
      = List.insertionSort (fun a b : ℚ => a ≤ b) ys := by
    exact List.eq_of_perm_of_sorted
      ((List.perm_insertionSort _ xs).trans
        (h.trans (List.perm_insertionSort _ ys).symm))
      (List.sorted_insertionSort _ xs) (List.sorted_insertionSort _ ys)
  simp only [percentile, hl, hs]

/-- The percentile-and-pad window is invariant under permutation of
each pooled axis. -/
theorem mkWindow_perm {ax ax2 ay ay2 : List ℚ} (hx : ax.Perm ax2) (hy : ay.Perm ay2) :
    mkWindow ax ay = mkWindow ax2 ay2 := by
  simp only [mkWindow, percentile_perm 1 hx, percentile_perm 99 hx,
    percentile_perm 1 hy, percentile_perm 99 hy]

/-- Pooling distributes over concatenation of snapshot sequences. -/
theorem poolBy_append (f : Snap → List ℚ) (l1 l2 : List Snap) :
    poolBy f (l1 ++ l2) = poolBy f l1 ++ poolBy f l2 := by
  induction l1 with
  | nil => simp [poolBy]
  | cons s rest ih => simp [poolBy, ih]

/-- Permuting the snapshot sequence permutes the pooled list. -/
theorem poolBy_perm (f : Snap → List ℚ) {l1 l2 : List Snap} (h : l1.Perm l2) :
    (poolBy f l1).Perm (poolBy f l2) := by
  induction h with
  | nil => exact List.Perm.refl _
  | cons x _ ih => exact List.Perm.append_left _ ih
  | swap x y l =>
    simp only [poolBy, ← List.append_assoc]
    exact List.Perm.append_right _ List.perm_append_comm
  | trans _ _ ih1 ih2 => exact ih1.trans ih2

/-- An empty x pool makes the window computation fail (np.percentile
raises on an empty input). -/
theorem mkWindow_nil_left (ys : List ℚ) : mkWindow [] ys = none := by
  simp [mkWindow, percentile]

/-- A file in the sequence without the time attribute makes the whole
loading loop fail with the missing-data error. -/
theorem loadAll_error_of_missing {files : List SnapFile} {f : SnapFile}
    (hf : f ∈ files) (ht : f.timeAttr = none) :
    loadAll files = Except.error LoadError.missingData := by
  induction files with
  | nil => cases hf
  | cons g gs ih =>
    rcases List.mem_cons.mp hf with rfl | hmem
    · simp [loadAll, load_snapshot, ht]
    · cases hg : load_snapshot g with
      | error e => cases e; simp [loadAll, hg]
      | ok s => simp [loadAll, hg, ih hmem]

/-- np.radians: convert degrees to radians. -/
noncomputable def radians (d : ℝ) : ℝ := d * Real.pi / 180

/-- Rotation matrix around the X axis built by rotate_3d (Rx). -/
noncomputable def rotXMat (ax : ℝ) : Matrix (Fin 3) (Fin 3) ℝ :=
  Matrix.of ![![1, 0, 0],
              ![0, Real.cos ax, -Real.sin ax],
              ![0, Real.sin ax, Real.cos ax]]

/-- Rotation matrix around the Z axis built by rotate_3d (Rz). -/
noncomputable def rotZMat (az : ℝ) : Matrix (Fin 3) (Fin 3) ℝ :=
  Matrix.of ![![Real.cos az, -Real.sin az, 0],
              ![Real.sin az, Real.cos az, 0],
              ![0, 0, 1]]

/-- rotate_3d of the tilted script applied to one coordinate row p:
convert the two angles to radians and compute pos @ Rx.T @ Rz.T. -/
noncomputable def rotate_3d (angle_x angle_z : ℝ) (p : Fin 3 → ℝ) : Fin 3 → ℝ :=
  Matrix.vecMul (Matrix.vecMul p (rotXMat (radians angle_x)).transpose)
    ((rotZMat (radians angle_z)).transpose)

/-- The tilted projection: rotate, then keep the first two columns
(rotated[:, :2]). -/
noncomputable def projectRot (angle_x angle_z : ℝ) (p : Fin 3 → ℝ) : ℝ × ℝ :=
  (rotate_3d angle_x angle_z p 0, rotate_3d angle_x angle_z p 1)

/-- The AxisDrop projection: keep columns i and j of a position row,
as the face-on slice pos[:, :2] and the edge-on slice pos[:, [0, 2]] do. -/
def axisDrop (i j : Fin 3) (p : Fin 3 → ℝ) : ℝ × ℝ := (p i, p j)

/-- Pointwise form of rotate_3d: the X rotation acts first, the Z
rotation second. -/
theorem rotate_3d_apply (angle_x angle_z : ℝ) (p : Fin 3 → ℝ) :
    rotate_3d angle_x angle_z p =
      ![Real.cos (radians angle_z) * p 0 -
          Real.sin (radians angle_z) *
            (Real.cos (radians angle_x) * p 1 - Real.sin (radians angle_x) * p 2),
        Real.sin (radians angle_z) * p 0 +
          Real.cos (radians angle_z) *
            (Real.cos (radians angle_x) * p 1 - Real.sin (radians angle_x) * p 2),
        Real.sin (radians angle_x) * p 1 + Real.cos (radians angle_x) * p 2] := by
  funext i
  fin_cases i <;>
    simp [rotate_3d, rotXMat, rotZMat, Matrix.vecMul, Matrix.dotProduct,
      Fin.sum_univ_three, Matrix.transpose_apply, Matrix.vecHead, Matrix.vecTail] <;>
    ring

/-- Euclidean distance between two 3D points. -/
noncomputable def dist3 (u v : Fin 3 → ℝ) : ℝ :=
  Real.sqrt ((u 0 - v 0) ^ 2 + (u 1 - v 1) ^ 2 + (u 2 - v 2) ^ 2)

/-- Claim C4: for every position row p and every pair of angles, the
Rotate projection applies the right-handed X rotation by angle_x first
and the Z rotation by angle_z second: the row computation
p @ Rx.T @ Rz.T equals (Rz * Rx) applied to p as a column vector, and
the projected 2D point is the first two columns of the rotated result. -/
theorem c4_rotation_order (angle_x angle_z : ℝ) (p : Fin 3 → ℝ) :
    rotate_3d angle_x angle_z p
      = Matrix.mulVec (rotZMat (radians angle_z) * rotXMat (radians angle_x)) p
    ∧ projectRot angle_x angle_z p
      = (rotate_3d angle_x angle_z p 0, rotate_3d angle_x angle_z p 1) := by
  constructor
  · unfold rotate_3d
    rw [Matrix.vecMul_transpose, Matrix.vecMul_transpose, Matrix.mulVec_mulVec]
  · rfl

/-- Claim C6: with both angles zero the Rotate projection is the
identity AxisDrop(0,1) projection: it returns exactly the (x, y)
columns with no rotation applied. -/
theorem c6_zero_rotation_identity (p : Fin 3 → ℝ) :
    projectRot 0 0 p = axisDrop 0 1 p := by
  have h0 : radians 0 = 0 := by simp [radians]
  simp [projectRot, rotate_3d_apply, h0, axisDrop]

/-- Claim C7: the 3D rotation applied by Rotate preserves the pairwise
Euclidean distance of any two points, for every pair of angles. -/
theorem c7_rotation_isometry (angle_x angle_z : ℝ) (p q : Fin 3 → ℝ) :
    dist3 (rotate_3d angle_x angle_z p) (rotate_3d angle_x angle_z q)
      = dist3 p q := by
  have hx := Real.sin_sq_add_cos_sq (radians angle_x)
  have hz := Real.sin_sq_add_cos_sq (radians angle_z)
  unfold dist3
  rw [rotate_3d_apply, rotate_3d_apply]
  congr 1
  simp only [Matrix.cons_val_zero, Matrix.cons_val_one, Matrix.head_cons,
    Matrix.cons_val_two, Matrix.tail_cons]
  linear_combination
    ((p 0 - q 0) ^ 2 +
        (Real.cos (radians angle_x) * (p 1 - q 1) -
          Real.sin (radians angle_x) * (p 2 - q 2)) ^ 2) * hz +
      ((p 1 - q 1) ^ 2 + (p 2 - q 2) ^ 2) * hx

/-- Claim C5: the view window computed by the bounds estimator is
invariant under permutation of the input snapshot sequence. -/
theorem c5_perm_invariant (snaps snaps2 : List Snap) (h : snaps.Perm snaps2) :
    faceWindow snaps = faceWindow snaps2 := by
  unfold faceWindow allXs allYs
  exact mkWindow_perm (poolBy_perm _ h) (poolBy_perm _ h)

/-- Witness for c5_perm_invariant: two concrete snapshots pooled in
either order give the same window. -/
theorem c5_witness :
    faceWindow
        [{ newstars_pos := [], newstars_mass := [], newstars_time := [],
           disk_pos := [(0, 0, 0)], bulge_pos := [], time := 0 },
         { newstars_pos := [], newstars_mass := [], newstars_time := [],
           disk_pos := [(1, 2, 3)], bulge_pos := [], time := 1 }]
      = faceWindow
        [{ newstars_pos := [], newstars_mass := [], newstars_time := [],
           disk_pos := [(1, 2, 3)], bulge_pos := [], time := 1 },
         { newstars_pos := [], newstars_mass := [], newstars_time := [],
           disk_pos := [(0, 0, 0)], bulge_pos := [], time := 0 }]
      :=
  c5_perm_invariant _ _ (List.Perm.swap _ _ _)

/-- Claim C1 counterexample: the tilted-mode window computation applied
to the pooled rotated coordinates all_x = [0, 100], all_y = [0, 100]
(arising, for instance, from a run with both angles zero over those
positions) gives the vertical window [-44/5, 544/5], which is not the
thin-axis override [-W/3, W/3] = [-196/5, 196/5] for W = 588/5 the
padded horizontal extent: the tilted mode does not apply the override. -/
theorem c1_counterexample :
    mkWindow [0, 100] [0, 100]
        = some { xlo := -44/5, xhi := 544/5, ylo := -44/5, yhi := 544/5 }
      ∧ ¬ ((-44/5 : ℚ) = -((544/5 : ℚ) - (-44/5 : ℚ)) / 3
            ∧ (544/5 : ℚ) = ((544/5 : ℚ) - (-44/5 : ℚ)) / 3) := by
  constructor
  · norm_num [mkWindow, percentile, List.insertionSort, List.orderedInsert]
  · intro hcontra
    have h1 := hcontra.1
    norm_num at h1

/-- Claim C1 as amended: only the edge-on mode overrides the thin axis.
There, the Z window is exactly [-W/3, W/3] centered at zero, W being
the padded extent of the horizontal axis, and the whole window is
independent of the Z-coordinate distribution of the data. -/
theorem c1_amended_thm (all_x all_z all_z2 : List ℚ) (w w2 : Window)
    (hw : edgeWindow all_x all_z = some w)
    (hw2 : edgeWindow all_x all_z2 = some w2) :
    w.ylo = -((w.xhi - w.xlo) / 3) ∧ w.yhi = (w.xhi - w.xlo) / 3 ∧ w = w2 := by
  unfold edgeWindow at hw hw2
  cases h1 : percentile 1 all_x with
  | none => rw [h1] at hw; cases hw
  | some x1 =>
    cases h99 : percentile 99 all_x with
    | none => rw [h1, h99] at hw; cases hw
    | some x99 =>
      rw [h1, h99] at hw hw2
      cases hz1 : percentile 1 all_z with
      | none => rw [hz1] at hw; cases hw
      | some z1 =>
        cases hz99 : percentile 99 all_z with
        | none => rw [hz1, hz99] at hw; cases hw
        | some z99 =>
          cases hz1b : percentile 1 all_z2 with
          | none => rw [hz1b] at hw2; cases hw2
          | some zb1 =>
            cases hz99b : percentile 99 all_z2 with
            | none => rw [hz1b, hz99b] at hw2; cases hw2
            | some zb99 =>
              rw [hz1, hz99] at hw
              rw [hz1b, hz99b] at hw2
              cases hw
              cases hw2
              refine ⟨?_, rfl, rfl⟩
              ring

/-- Witness for c1_amended_thm: a concrete edge-on pool, with two
different Z samples giving the same window. -/
theorem c1_witness :
    ({ xlo := -44/5, xhi := 544/5, ylo := -196/5, yhi := 196/5 : Window }).ylo
        = -((( { xlo := -44/5, xhi := 544/5, ylo := -196/5, yhi := 196/5 : Window }).xhi
              - ({ xlo := -44/5, xhi := 544/5, ylo := -196/5, yhi := 196/5 : Window }).xlo) / 3)
      ∧ ({ xlo := -44/5, xhi := 544/5, ylo := -196/5, yhi := 196/5 : Window }).yhi
          = (({ xlo := -44/5, xhi := 544/5, ylo := -196/5, yhi := 196/5 : Window }).xhi
              - ({ xlo := -44/5, xhi := 544/5, ylo := -196/5, yhi := 196/5 : Window }).xlo) / 3
      ∧ ({ xlo := -44/5, xhi := 544/5, ylo := -196/5, yhi := 196/5 : Window })
          = { xlo := -44/5, xhi := 544/5, ylo := -196/5, yhi := 196/5 } :=
  c1_amended_thm [0, 100] [1000, 1000] [7] _ _
    (by norm_num [edgeWindow, percentile, List.insertionSort, List.orderedInsert])
    (by norm_num [edgeWindow, percentile, List.insertionSort, List.orderedInsert])

/-- Claim C2 counterexample: on the no-snapshots-discovered input,
create_animation prints and returns normally; no error of any kind is
signalled, contradicting the claim that an EmptyDatasetError is
signalled for every empty pooled point set. -/
theorem c2_counterexample :
    create_animation [] = RunResult.noSnapshots
      ∧ RunResult.isErr RunResult.noSnapshots = false :=
  ⟨rfl, rfl⟩

/-- Claim C2 as amended: when no snapshot files are discovered,
create_animation returns early without rendering and without signalling
an error, while create_static_frames reaches np.percentile on the empty
pool and fails there; when files exist but every loaded snapshot is
empty, both abort with the empty-pool error before any frame is
rendered; and a rendered run's window always comes from the pooled
percentiles of the actual data, never from an arbitrary window. -/
theorem c2_amended_thm (files : List SnapFile) :
    (files = [] → create_animation files = RunResult.noSnapshots
        ∧ create_static_frames files = Except.error RunError.emptyPool)
    ∧ (∀ snaps, files ≠ [] → loadAll files = Except.ok snaps →
        allXs snaps = [] →
        create_animation files = RunResult.err RunError.emptyPool)
    ∧ (∀ snaps, loadAll files = Except.ok snaps → allXs snaps = [] →
        create_static_frames files = Except.error RunError.emptyPool)
    ∧ (∀ w frames, create_animation files = RunResult.rendered w frames →
        ∃ snaps, loadAll files = Except.ok snaps
          ∧ mkWindow (allXs snaps) (allYs snaps) = some w) := by
  refine ⟨?_, ?_, ?_, ?_⟩
  · rintro rfl
    exact ⟨rfl, rfl⟩
  · intro snaps hne hload hempty
    have hne2 : files.isEmpty = false := by simpa using hne
    have hkey : mkWindow (allXs snaps) (allYs snaps) = none := by
      rw [hempty, mkWindow_nil_left]
    simp only [create_animation, hne2, Bool.false_eq_true, if_false, hload, hkey]
  · intro snaps hload hempty
    have hkey : mkWindow (allXs snaps) (allYs snaps) = none := by
      rw [hempty, mkWindow_nil_left]
    simp only [create_static_frames, hload, hkey]
  · intro w frames hrun
    unfold create_animation at hrun
    by_cases he : files.isEmpty
    · rw [if_pos he] at hrun; cases hrun
    · rw [if_neg he] at hrun
      cases hload : loadAll files with
      | error e =>
        cases e
        simp only [hload] at hrun
        cases hrun
      | ok snaps =>
        simp only [hload] at hrun
        cases hwin : mkWindow (allXs snaps) (allYs snaps) with
        | none =>
          simp only [hwin] at hrun
          cases hrun
        | some w2 =>
          simp only [hwin] at hrun
          cases hrun
          exact ⟨snaps, rfl, hwin⟩

/-- Witness for c2_amended_thm: one discovered file whose snapshot has
no particles of any class makes the run abort with the empty-pool
error. -/
theorem c2_witness :
    create_animation [{ timeAttr := some 0, partType4 := none,
                        partType2 := none, partType3 := none }]
      = RunResult.err RunError.emptyPool :=
  (c2_amended_thm _).2.1
    [{ newstars_pos := [], newstars_mass := [], newstars_time := [],
       disk_pos := [], bulge_pos := [], time := 0 }]
    (by simp) rfl rfl

/-- Claim C3 counterexample: in an edge-on run whose particles all sit
at Z = 1000, the Z percentiles are 1000 and the padded Z percentile
interval is [1000, 1000], but the computed Z window is the override
[-196/5, 196/5], which does not contain it: on the thin axis the window
need not contain the padded percentile range. -/
theorem c3_counterexample :
    edgeWindow [0, 100] [1000, 1000]
        = some { xlo := -44/5, xhi := 544/5, ylo := -196/5, yhi := 196/5 }
      ∧ percentile 1 [1000, 1000] = some 1000
      ∧ percentile 99 [1000, 1000] = some 1000
      ∧ ¬ ((-196/5 : ℚ) ≤ 1000 - (1000 - 1000) / 10
            ∧ (1000 : ℚ) + (1000 - 1000) / 10 ≤ 196/5) := by
  refine ⟨?_, ?_, ?_, ?_⟩
  · norm_num [edgeWindow, percentile, List.insertionSort, List.orderedInsert]
  · norm_num [percentile, List.insertionSort, List.orderedInsert]
  · norm_num [percentile, List.insertionSort, List.orderedInsert]
  · intro hcontra
    have h2 := hcontra.2
    norm_num at h2

/-- Claim C3 as amended: on every axis except the edge-on thin axis,
the window equals (hence contains) the 1st-to-99th percentile interval
of the pooled projected points padded by 10 percent of the percentile
range on each end - both axes of the face-on and tilted windows and the
horizontal axis of the edge-on window - and one render run uses that
window unchanged for every frame. -/
theorem c3_amended_thm (all_x all_y : List ℚ) (x1 x99 y1 y99 : ℚ)
    (hx1 : percentile 1 all_x = some x1) (hx99 : percentile 99 all_x = some x99)
    (hy1 : percentile 1 all_y = some y1) (hy99 : percentile 99 all_y = some y99) :
    mkWindow all_x all_y
      = some { xlo := x1 - (x99 - x1) / 10, xhi := x99 + (x99 - x1) / 10,
               ylo := y1 - (y99 - y1) / 10, yhi := y99 + (y99 - y1) / 10 }
    ∧ (∀ w, edgeWindow all_x all_y = some w →
        w.xlo = x1 - (x99 - x1) / 10 ∧ w.xhi = x99 + (x99 - x1) / 10)
    ∧ (∀ files w frames, create_animation files = RunResult.rendered w frames →
        ∀ f ∈ frames, f.window = w) := by
  refine ⟨?_, ?_, ?_⟩
  · unfold mkWindow
    rw [hx1, hx99, hy1, hy99]
  · intro w hw
    unfold edgeWindow at hw
    rw [hx1, hx99, hy1, hy99] at hw
    cases hw
    exact ⟨rfl, rfl⟩
  · intro files w frames hrun f hf
    unfold create_animation at hrun
    by_cases he : files.isEmpty
    · rw [if_pos he] at hrun; cases hrun
    · rw [if_neg he] at hrun
      cases hload : loadAll files with
      | error e =>
        cases e
        simp only [hload] at hrun
        cases hrun
      | ok snaps =>
        simp only [hload] at hrun
        cases hwin : mkWindow (allXs snaps) (allYs snaps) with
        | none =>
          simp only [hwin] at hrun
          cases hrun
        | some w2 =>
          simp only [hwin] at hrun
          cases hrun
          rcases List.mem_map.mp hf with ⟨s, _, rfl⟩
          rfl

/-- Witness for c3_amended_thm: the concrete pool [0, 100] on both
axes, whose percentiles are 1 and 99. -/
theorem c3_witness :
    mkWindow [0, 100] [0, 100]
      = some { xlo := 1 - ((99 : ℚ) - 1) / 10, xhi := 99 + ((99 : ℚ) - 1) / 10,
               ylo := 1 - ((99 : ℚ) - 1) / 10, yhi := 99 + ((99 : ℚ) - 1) / 10 }
    ∧ (∀ w, edgeWindow [0, 100] [0, 100] = some w →
        w.xlo = 1 - ((99 : ℚ) - 1) / 10 ∧ w.xhi = 99 + ((99 : ℚ) - 1) / 10)
    ∧ (∀ files w frames, create_animation files = RunResult.rendered w frames →
        ∀ f ∈ frames, f.window = w) :=
  c3_amended_thm [0, 100] [0, 100] 1 99 1 99
    (by norm_num [percentile, List.insertionSort, List.orderedInsert])
    (by norm_num [percentile, List.insertionSort, List.orderedInsert])
    (by norm_num [percentile, List.insertionSort, List.orderedInsert])
    (by norm_num [percentile, List.insertionSort, List.orderedInsert])

/-- Claim C8: an absent particle class loads as a 0x3 position set
(never null), projecting the empty class yields a 0x2 set without
error, and a frame whose newly-formed-star set is empty contributes
nothing to the pooled percentile computation: the window equals the
one computed with that frame's new-star contribution omitted from the
pool entirely. -/
theorem c8_empty_class (f : SnapFile) (t : ℚ) (s : Snap) (pre post : List Snap)
    (ht : f.timeAttr = some t) (hf4 : f.partType4 = none)
    (hs : s.newstars_pos = []) :
    (∃ s2, load_snapshot f = Except.ok s2
        ∧ s2.newstars_pos = ([] : List (ℚ × ℚ × ℚ)))
    ∧ projectXY [] = []
    ∧ allXs (pre ++ s :: post) = allXs pre ++ oldXs s ++ allXs post
    ∧ faceWindow (pre ++ s :: post)
        = mkWindow (allXs pre ++ oldXs s ++ allXs post)
            (allYs pre ++ oldYs s ++ allYs post) := by
  have hnewx : newXs s = [] := by simp [newXs, hs]
  have hnewy : newYs s = [] := by simp [newYs, hs]
  have hx : allXs (pre ++ s :: post) = allXs pre ++ oldXs s ++ allXs post := by
    unfold allXs
    rw [poolBy_append]
    simp [poolBy, snapXs, hnewx, List.append_assoc]
  have hy : allYs (pre ++ s :: post) = allYs pre ++ oldYs s ++ allYs post := by
    unfold allYs
    rw [poolBy_append]
    simp [poolBy, snapYs, hnewy, List.append_assoc]
  refine ⟨?_, rfl, hx, ?_⟩
  · unfold load_snapshot
    rw [ht, hf4]
    exact ⟨_, rfl, rfl⟩
  · unfold faceWindow
    rw [hx, hy]

/-- A concrete snapshot with one disk particle and no newly formed
stars. -/
def sampleSnap : Snap :=
  { newstars_pos := [], newstars_mass := [], newstars_time := [],
    disk_pos := [(1, 2, 3)], bulge_pos := [], time := 0 }

/-- Witness for c8_empty_class at a concrete file and snapshot. -/
theorem c8_witness :
    (∃ s2, load_snapshot { timeAttr := some 0, partType4 := none,
                           partType2 := some [(1, 2, 3)], partType3 := none }
          = Except.ok s2 ∧ s2.newstars_pos = ([] : List (ℚ × ℚ × ℚ)))
    ∧ projectXY [] = []
    ∧ allXs ([] ++ sampleSnap :: [])
        = allXs [] ++ oldXs sampleSnap ++ allXs []
    ∧ faceWindow ([] ++ sampleSnap :: [])
        = mkWindow (allXs [] ++ oldXs sampleSnap ++ allXs [])
            (allYs [] ++ oldYs sampleSnap ++ allYs []) :=
  c8_empty_class _ 0 sampleSnap [] [] rfl rfl rfl

/-- Claim C9: a snapshot file without the time attribute fails to load
with the missing-data error, the failure is fatal to the whole run,
and a file that has the time attribute yields a Snapshot carrying that
time. -/
theorem c9_missing_time (f : SnapFile) (files : List SnapFile) (t : ℚ) :
    (f.timeAttr = none → load_snapshot f = Except.error LoadError.missingData)
    ∧ (f.timeAttr = some t → ∃ s, load_snapshot f = Except.ok s ∧ s.time = t)
    ∧ (f ∈ files → f.timeAttr = none →
        create_animation files = RunResult.err RunError.missingData) := by
  refine ⟨?_, ?_, ?_⟩
  · intro ht
    unfold load_snapshot
    rw [ht]
  · intro ht
    unfold load_snapshot
    rw [ht]
    exact ⟨_, rfl, rfl⟩
  · intro hmem ht
    have hload := loadAll_error_of_missing hmem ht
    have hne : files.isEmpty = false := by
      cases files with
      | nil => cases hmem
      | cons a l => rfl
    simp only [create_animation, hne, Bool.false_eq_true, if_false, hload]

/-- Claim C10: the three newly-formed-star arrays of a loaded snapshot
are parallel, provided the file's PartType4 datasets are parallel (as
the snapshot format guarantees); an absent class gives all three
length zero. -/
theorem c10_parallel_arrays (f : SnapFile) (s : Snap)
    (hwf : ∀ d, f.partType4 = some d →
        d.coordinates.length = d.masses.length
          ∧ d.masses.length = d.sftime.length)
    (hload : load_snapshot f = Except.ok s) :
    s.newstars_pos.length = s.newstars_mass.length
      ∧ s.newstars_mass.length = s.newstars_time.length := by
  unfold load_snapshot at hload
  cases ht : f.timeAttr with
  | none => rw [ht] at hload; cases hload
  | some t =>
    rw [ht] at hload
    cases h4 : f.partType4 with
    | none =>
      rw [h4] at hload
      cases hload
      exact ⟨rfl, rfl⟩
    | some d =>
      rw [h4] at hload
      cases hload
      simpa using hwf d h4

/-- Witness for c10_parallel_arrays at a concrete file with no
PartType4 group. -/
theorem c10_witness :
    ({ newstars_pos := [], newstars_mass := [], newstars_time := [],
       disk_pos := [], bulge_pos := [], time := 0 } : Snap).newstars_pos.length
        = ({ newstars_pos := [], newstars_mass := [], newstars_time := [],
             disk_pos := [], bulge_pos := [], time := 0 } : Snap).newstars_mass.length
    ∧ ({ newstars_pos := [], newstars_mass := [], newstars_time := [],
         disk_pos := [], bulge_pos := [], time := 0 } : Snap).newstars_mass.length
        = ({ newstars_pos := [], newstars_mass := [], newstars_time := [],
             disk_pos := [], bulge_pos := [], time := 0 } : Snap).newstars_time.length :=
  c10_parallel_arrays
    { timeAttr := some 0, partType4 := none, partType2 := none, partType3 := none }
    _ (fun _ hd => nomatch hd) rfl

end GalaxyVis
